import Mathlib

/-!
# A verification development for the custom-fetch wrapper

Shallow embedding of src/custom-fetch.js.  The JavaScript file exports a
single async function customFetch(url, options) that builds a full URL,
builds a request configuration (JSON body, Content-Type and Authorization
headers, abort signal), optionally schedules a timeout-driven abort,
issues the request through the platform fetch primitive, dispatches the
response to success/error handling, and cleans the timer up in a finally
block.

The embedding is pure: the platform transport is a parameter
(a function from URL and request configuration to either a thrown error or
a Response), the ambient token provider is a parameter (the token string it
returns at call time), promises become Except values (Except.error = the
promise rejects, Except.ok = it resolves), and every observable side effect
(timer scheduling and clearing, console logging, the user-facing alert,
callback invocations) is recorded in an event trace.
-/

/-- JavaScript values as far as this wrapper manipulates them: the JSON-like
data used for options.data and options.params. -/
inductive Json where
  | null
  | bool (b : Bool)
  | num (n : Int)
  | str (s : String)
  | arr (elems : List Json)
  | obj (fields : List (String × Json))

/-- One lowercase hexadecimal digit (used by the JSON string escaper). -/
def hexDigitLower (n : Nat) : String :=
  String.singleton (if n < 10 then Char.ofNat (48 + n) else Char.ofNat (87 + n))

/-- One uppercase hexadecimal digit (used by the URL percent-encoder). -/
def hexDigitUpper (n : Nat) : String :=
  String.singleton (if n < 10 then Char.ofNat (48 + n) else Char.ofNat (55 + n))

/-- How JSON.stringify escapes one character inside a string literal. -/
def jsonEscapeChar (c : Char) : String :=
  if c = '"' then "\\\""
  else if c = '\\' then "\\\\"
  else if c = '\n' then "\\n"
  else if c = '\t' then "\\t"
  else if c = '\r' then "\\r"
  else if c.toNat < 32 then
    "\\u00" ++ hexDigitLower (c.toNat / 16) ++ hexDigitLower (c.toNat % 16)
  else String.singleton c

/-- JSON.stringify of a string: double quotes around the escaped characters. -/
def jsonQuote (s : String) : String :=
  "\"" ++ String.join (s.toList.map jsonEscapeChar) ++ "\""

mutual

/-- The platform primitive JSON.stringify restricted to the JSON-like values
above (createRequestConfig applies it to options.data). -/
def stringifyJson : Json → String
  | Json.null => "null"
  | Json.bool true => "true"
  | Json.bool false => "false"
  | Json.num n => toString n
  | Json.str s => jsonQuote s
  | Json.arr elems => "[" ++ String.intercalate "," (stringifyElems elems) ++ "]"
  | Json.obj fields => "\x7b" ++ String.intercalate "," (stringifyFields fields) ++ "\x7d"

/-- JSON.stringify of the elements of an array. -/
def stringifyElems : List Json → List String
  | [] => []
  | v :: rest => stringifyJson v :: stringifyElems rest

/-- JSON.stringify of the key/value fields of an object. -/
def stringifyFields : List (String × Json) → List String
  | [] => []
  | (k, v) :: rest => (jsonQuote k ++ ":" ++ stringifyJson v) :: stringifyFields rest

end

mutual

/-- The JavaScript String() conversion applied by URLSearchParams to each
parameter value. -/
def jsToString : Json → String
  | Json.null => "null"
  | Json.bool true => "true"
  | Json.bool false => "false"
  | Json.num n => toString n
  | Json.str s => s
  | Json.arr elems => String.intercalate "," (jsToStringElems elems)
  | Json.obj _ => "[object Object]"

/-- Array-to-string conversion: elements joined by commas, null rendered
as the empty string (Array.prototype.join semantics). -/
def jsToStringElems : List Json → List String
  | [] => []
  | Json.null :: rest => "" :: jsToStringElems rest
  | v :: rest => jsToString v :: jsToStringElems rest

end

/-- UTF-8 bytes of one character (URLSearchParams percent-encodes the UTF-8
encoding of each component). -/
def utf8Bytes (c : Char) : List Nat :=
  let n := c.toNat
  if n < 128 then [n]
  else if n < 2048 then [192 + n / 64, 128 + n % 64]
  else if n < 65536 then [224 + n / 4096, 128 + (n / 64) % 64, 128 + n % 64]
  else [240 + n / 262144, 128 + (n / 4096) % 64, 128 + (n / 64) % 64, 128 + n % 64]

/-- The application/x-www-form-urlencoded serializer, one byte at a time:
ASCII alphanumerics and asterisk, hyphen, period, underscore stay as they
are, a space becomes a plus sign, every other byte is percent-encoded. -/
def urlencodeByte (b : Nat) : String :=
  if b = 32 then "+"
  else if (48 ≤ b ∧ b ≤ 57) ∨ (65 ≤ b ∧ b ≤ 90) ∨ (97 ≤ b ∧ b ≤ 122)
      ∨ b = 42 ∨ b = 45 ∨ b = 46 ∨ b = 95 then
    String.singleton (Char.ofNat b)
  else "%" ++ hexDigitUpper (b / 16) ++ hexDigitUpper (b % 16)

/-- URL-encode one component (key or value) of the query string. -/
def urlencode (s : String) : String :=
  String.join (s.toList.map fun c => String.join ((utf8Bytes c).map urlencodeByte))

/-- The platform primitive new URLSearchParams(params).toString(): each
key/value pair is URL-encoded (the value after String() conversion), pairs
are joined by ampersands in the mapping's iteration order. -/
def urlSearchParamsToString (params : List (String × Json)) : String :=
  String.intercalate "&" (params.map fun kv =>
    urlencode kv.1 ++ "=" ++ urlencode (jsToString kv.2))

/-- A JavaScript Error as far as the wrapper inspects it: handleError reads
only error.name; the message documents the error for the trace. -/
structure JsError where
  name : String
  message : String

/-- A JavaScript value a parser call can produce: the structured value from
response.json() (also booleans and plain objects returned by inherited
Object.prototype members), the string from response.text() (also the string
an inherited toString call returns), the binary bytes from response.blob(),
the undefined value, or an opaque reference to a live object that JSON
cannot represent (the parsers object itself, which valueOf returns). -/
inductive Value where
  | json (j : Json)
  | text (s : String)
  | blob (bytes : List Nat)
  | undef
  | objectRef (name : String)

/-- The platform Response as far as the wrapper uses it: the ok flag and the
three body-decoding operations, each of which may itself fail (a malformed
body makes the corresponding promise reject). -/
structure Response where
  ok : Bool
  jsonBody : Except JsError Json
  textBody : Except JsError String
  blobBody : Except JsError (List Nat)

/-- The request descriptor handed to the platform fetch primitive
(createRequestConfig's return value): method, optional body, headers, and
whether the abort signal of the internal controller is attached. -/
structure RequestConfig where
  method : String
  body : Option String
  headers : List (String × String)
  signalAttached : Bool

/-- The destructured options of customFetch with the source's defaults.
params and data use Option for the null/absent cases (both are objects when
present, so JavaScript truthiness coincides with Option.isSome).  The two
callbacks are modelled by whether they are supplied; their invocations are
recorded in the event trace. -/
structure FetchOptions where
  method : String := "POST"
  baseURL : String := ""
  responseType : String := "json"
  params : Option (List (String × Json)) := none
  data : Option Json := none
  timeout : Nat := 0
  hasSuccessCallback : Bool := false
  hasErrorCallback : Bool := false

/-- Observable side effects of one customFetch invocation, in order. -/
inductive Event where
  | timerSet (ms : Nat)
  | timerCleared
  | log (msg : String)
  | alertE (e : JsError)
  | callbackSuccess (v : Value)
  | callbackError (r : Response)

/-- The outcome of one customFetch invocation: the settled promise
(Except.error e = rejected with e; Except.ok none = resolved with
undefined; Except.ok (some v) = resolved with v) and the event trace. -/
structure FetchResult where
  result : Except JsError (Option Value)
  events : List Event

/-- createFullUrl (src/custom-fetch.js lines 63-68): query string is a
question mark plus the URLSearchParams serialization when params is truthy,
empty otherwise; the full URL is the template concatenation
baseURL + url + queryString. -/
def createFullUrl (url : String) (baseURL : String)
    (params : Option (List (String × Json))) : String :=
  let queryString :=
    match params with
    | some ps => "?" ++ urlSearchParamsToString ps
    | none => ""
  baseURL ++ url ++ queryString

/-- createRequestConfig (src/custom-fetch.js lines 71-81).  The ambient
token provider getToken() is passed in as the token string it returns at
call time; body is JSON.stringify(data) when data is truthy, null
otherwise; the controller argument becomes the attached abort signal. -/
def createRequestConfig (method : String) (data : Option Json)
    (getToken : String) : RequestConfig :=
  { method := method
  , body := data.map stringifyJson
  , headers :=
      [("Content-Type", "application/json"),
       ("Authorization", "Bearer " ++ getToken)]
  , signalAttached := true }

/-- The own property names of Object.prototype, which every object literal
inherits: parsers[responseType] finds a defined inherited value for each of
them even though the literal declares only json, text and blob. -/
def objectPrototypeMembers : List String :=
  ["constructor", "hasOwnProperty", "isPrototypeOf", "propertyIsEnumerable",
   "toLocaleString", "toString", "valueOf", "__defineGetter__",
   "__defineSetter__", "__lookupGetter__", "__lookupSetter__", "__proto__"]

/-- The object literal of parsers in parseResponse (src/custom-fetch.js
lines 109-113), read by key and called with no arguments.  The three
enumerated keys find the own members.  A key naming an inherited
Object.prototype method finds that method; the entry here is what calling
it on the parsers object with no arguments produces: toString and
toLocaleString return the string [object Object]; hasOwnProperty,
isPrototypeOf and propertyIsEnumerable return false; constructor (the
Object function) returns a fresh empty object; valueOf returns the parsers
object itself; the getter/setter lookups return undefined; the
getter/setter definers throw a TypeError of their own.  none means the
lookup found nothing callable - undefined for keys outside every property,
and the non-function Object.prototype for the key named two underscores
proto two underscores - so the call itself throws a TypeError. -/
def parsers (response : Response) (responseType : String) :
    Option (Except JsError Value) :=
  if responseType = "json" then some (response.jsonBody.map Value.json)
  else if responseType = "text" then some (response.textBody.map Value.text)
  else if responseType = "blob" then some (response.blobBody.map Value.blob)
  else if responseType = "toString" ∨ responseType = "toLocaleString" then
    some (Except.ok (Value.text "[object Object]"))
  else if responseType = "hasOwnProperty" ∨ responseType = "isPrototypeOf"
      ∨ responseType = "propertyIsEnumerable" then
    some (Except.ok (Value.json (Json.bool false)))
  else if responseType = "constructor" then
    some (Except.ok (Value.json (Json.obj [])))
  else if responseType = "valueOf" then
    some (Except.ok (Value.objectRef "parsers"))
  else if responseType = "__lookupGetter__" ∨ responseType = "__lookupSetter__" then
    some (Except.ok Value.undef)
  else if responseType = "__defineGetter__" then
    some (Except.error
      { name := "TypeError", message := "Getter must be a function" })
  else if responseType = "__defineSetter__" then
    some (Except.error
      { name := "TypeError", message := "Setter must be a function" })
  else none

/-- The TypeError thrown by parsers[responseType]() when the lookup yields
undefined. -/
def typeErrorNotAFunction : JsError :=
  { name := "TypeError", message := "parsers[responseType] is not a function" }

/-- parseResponse (src/custom-fetch.js lines 108-116): call the parser the
lookup found; calling undefined throws a TypeError. -/
def parseResponse (response : Response) (responseType : String) :
    Except JsError Value :=
  match parsers response responseType with
  | some run => run
  | none => Except.error typeErrorNotAFunction

/-- handleResponse (src/custom-fetch.js lines 85-105): on a non-ok response
invoke errorCallback with the raw response when supplied and return
undefined; otherwise parse the body (a parse failure propagates), invoke
successCallback with the parsed data when supplied, and return the data. -/
def handleResponse (response : Response) (responseType : String)
    (hasSuccessCallback : Bool) (hasErrorCallback : Bool) :
    Except JsError (Option Value) × List Event :=
  if !response.ok then
    (Except.ok none,
     if hasErrorCallback then [Event.callbackError response] else [])
  else
    match parseResponse response responseType with
    | Except.error e => (Except.error e, [])
    | Except.ok responseData =>
        (Except.ok (some responseData),
         if hasSuccessCallback then [Event.callbackSuccess responseData]
         else [])

/-- handleError (src/custom-fetch.js lines 119-128): log the error, log a
timeout message when it is an AbortError, alert it, and re-throw the very
same error (returned unchanged as the first component). -/
def handleError (error : JsError) : JsError × List Event :=
  (error,
    [Event.log "Fetch error:"]
      ++ (if error.name = "AbortError" then [Event.log "Request timeout"]
          else [])
      ++ [Event.alertE error])

/-- The timer id: setTimeout runs only when timeout is truthy (nonzero);
browser timer ids are positive, modelled by the id 1. -/
def timeoutIdOf (timeout : Nat) : Option Nat :=
  if timeout ≠ 0 then some 1 else none

/-- cleanupTimeout (src/custom-fetch.js lines 131-135): clearTimeout runs
when timeoutId is truthy (non-null and nonzero). -/
def cleanupTimeout (timeoutId : Option Nat) : List Event :=
  match timeoutId with
  | some id => if id ≠ 0 then [Event.timerCleared] else []
  | none => []

/-- The events of scheduling the timeout (src/custom-fetch.js lines 33-36):
a timer is set exactly when the timeout is truthy. -/
def setupEvents (timeout : Nat) : List Event :=
  match timeoutIdOf timeout with
  | some _ => [Event.timerSet timeout]
  | none => []

/-- The try block of customFetch (src/custom-fetch.js lines 38-54): build
the full URL and the request configuration, issue the request through the
transport, and hand the response to handleResponse.  A transport failure
(network error or abort) leaves the block with that error. -/
def attempt (url : String) (options : FetchOptions)
    (transport : String → RequestConfig → Except JsError Response)
    (getToken : String) : Except JsError (Option Value) × List Event :=
  match transport (createFullUrl url options.baseURL options.params)
      (createRequestConfig options.method options.data getToken) with
  | Except.error e => (Except.error e, [])
  | Except.ok response =>
      handleResponse response options.responseType
        options.hasSuccessCallback options.hasErrorCallback

/-- The catch block of customFetch (src/custom-fetch.js lines 55-56): every
error thrown in the try block goes through handleError, which re-throws
it. -/
def catchPhase (tried : Except JsError (Option Value) × List Event) :
    Except JsError (Option Value) × List Event :=
  match tried with
  | (Except.error e, events) =>
      (Except.error (handleError e).1, events ++ (handleError e).2)
  | (Except.ok v, events) => (Except.ok v, events)

/-- customFetch (src/custom-fetch.js lines 20-60): schedule the optional
timeout, run the try block, route any thrown error through the catch block,
and run the finally block (cleanupTimeout) on both paths. -/
def customFetch (url : String) (options : FetchOptions)
    (transport : String → RequestConfig → Except JsError Response)
    (getToken : String) : FetchResult :=
  { result := (catchPhase (attempt url options transport getToken)).1
  , events :=
      setupEvents options.timeout
        ++ (catchPhase (attempt url options transport getToken)).2
        ++ cleanupTimeout (timeoutIdOf options.timeout) }

/-- The successCallback invocations recorded in a trace, with their
arguments, in order. -/
def successCalls (events : List Event) : List Value :=
  events.filterMap fun e =>
    match e with
    | Event.callbackSuccess v => some v
    | _ => none

/-- The errorCallback invocations recorded in a trace, with their
arguments, in order. -/
def errorCalls (events : List Event) : List Response :=
  events.filterMap fun e =>
    match e with
    | Event.callbackError r => some r
    | _ => none

/-- Recognizer for timer-scheduling events. -/
def isTimerSet : Event → Bool
  | Event.timerSet _ => true
  | _ => false

/-- Recognizer for timer-clearing events. -/
def isTimerCleared : Event → Bool
  | Event.timerCleared => true
  | _ => false

/-! ## Helper lemmas about traces -/

theorem successCalls_append (l1 l2 : List Event) :
    successCalls (l1 ++ l2) = successCalls l1 ++ successCalls l2 := by
  simp [successCalls]

theorem errorCalls_append (l1 l2 : List Event) :
    errorCalls (l1 ++ l2) = errorCalls l1 ++ errorCalls l2 := by
  simp [errorCalls]

theorem successCalls_setupEvents (t : Nat) :
    successCalls (setupEvents t) = [] := by
  by_cases h : t = 0 <;> simp [setupEvents, timeoutIdOf, h, successCalls]

theorem errorCalls_setupEvents (t : Nat) :
    errorCalls (setupEvents t) = [] := by
  by_cases h : t = 0 <;> simp [setupEvents, timeoutIdOf, h, errorCalls]

theorem successCalls_cleanup (t : Nat) :
    successCalls (cleanupTimeout (timeoutIdOf t)) = [] := by
  by_cases h : t = 0 <;> simp [cleanupTimeout, timeoutIdOf, h, successCalls]

theorem errorCalls_cleanup (t : Nat) :
    errorCalls (cleanupTimeout (timeoutIdOf t)) = [] := by
  by_cases h : t = 0 <;> simp [cleanupTimeout, timeoutIdOf, h, errorCalls]

theorem handleError_fst (e : JsError) : (handleError e).1 = e := rfl

theorem handleError_timer_free (e : JsError) :
    (handleError e).2.countP isTimerSet = 0 ∧
    (handleError e).2.countP isTimerCleared = 0 := by
  by_cases h : e.name = "AbortError" <;>
    simp [handleError, h, isTimerSet, isTimerCleared]

theorem handleResponse_timer_free (response : Response) (rt : String)
    (hs he : Bool) :
    (handleResponse response rt hs he).2.countP isTimerSet = 0 ∧
    (handleResponse response rt hs he).2.countP isTimerCleared = 0 := by
  unfold handleResponse
  cases response.ok
  · cases he <;> simp [isTimerSet, isTimerCleared]
  · cases parseResponse response rt
    · simp
    · cases hs <;> simp [isTimerSet, isTimerCleared]

theorem attempt_timer_free (url : String) (options : FetchOptions)
    (transport : String → RequestConfig → Except JsError Response)
    (getToken : String) :
    (attempt url options transport getToken).2.countP isTimerSet = 0 ∧
    (attempt url options transport getToken).2.countP isTimerCleared = 0 := by
  unfold attempt
  cases transport (createFullUrl url options.baseURL options.params)
      (createRequestConfig options.method options.data getToken)
  · simp
  · exact handleResponse_timer_free _ _ _ _

theorem catchPhase_timer_free
    (tried : Except JsError (Option Value) × List Event)
    (h1 : tried.2.countP isTimerSet = 0)
    (h2 : tried.2.countP isTimerCleared = 0) :
    (catchPhase tried).2.countP isTimerSet = 0 ∧
    (catchPhase tried).2.countP isTimerCleared = 0 := by
  rcases tried with ⟨r, events⟩
  cases r with
  | error e =>
      simp only [catchPhase, List.countP_append]
      exact ⟨by rw [h1, (handleError_timer_free e).1],
             by rw [h2, (handleError_timer_free e).2]⟩
  | ok v => exact ⟨h1, h2⟩

/-- The events produced inside the try/catch of customFetch never touch the
timer: setting and clearing it happen only at the top and in the finally
block. -/
theorem tryCatch_timer_free (url : String) (options : FetchOptions)
    (transport : String → RequestConfig → Except JsError Response)
    (getToken : String) :
    (catchPhase (attempt url options transport getToken)).2.countP
        isTimerSet = 0 ∧
    (catchPhase (attempt url options transport getToken)).2.countP
        isTimerCleared = 0 :=
  catchPhase_timer_free _ (attempt_timer_free url options transport getToken).1
    (attempt_timer_free url options transport getToken).2

/-- Any invocation whose try block ends with a thrown error e rejects with
that same error after logging and alerting it. -/
theorem error_path_spec (url : String) (options : FetchOptions)
    (transport : String → RequestConfig → Except JsError Response)
    (getToken : String) (e : JsError)
    (ha : attempt url options transport getToken = (Except.error e, [])) :
    (customFetch url options transport getToken).result = Except.error e ∧
    Event.log "Fetch error:" ∈ (customFetch url options transport getToken).events ∧
    Event.alertE e ∈ (customFetch url options transport getToken).events := by
  have hres : (customFetch url options transport getToken).result
      = Except.error e := by
    simp [customFetch, ha, catchPhase, handleError_fst]
  have hev : (customFetch url options transport getToken).events
      = setupEvents options.timeout ++ (handleError e).2
        ++ cleanupTimeout (timeoutIdOf options.timeout) := by
    simp [customFetch, ha, catchPhase]
  refine ⟨hres, ?_, ?_⟩ <;> rw [hev] <;>
    by_cases h : e.name = "AbortError" <;> simp [handleError, h]

/-! ## Concrete inputs for witnesses -/

/-- A concrete parsed JSON body (the spec's scenario body). -/
def sampleJsonBody : Json := Json.obj [("id", Json.num 1)]

/-- A concrete successful response carrying sampleJsonBody. -/
def sampleOkResponse : Response :=
  { ok := true
  , jsonBody := Except.ok sampleJsonBody
  , textBody := Except.ok ""
  , blobBody := Except.ok [] }

/-- A concrete failed-status (500-style) response. -/
def sampleErrResponse : Response :=
  { ok := false
  , jsonBody := Except.ok Json.null
  , textBody := Except.ok ""
  , blobBody := Except.ok [] }

/-- A transport that always yields sampleOkResponse. -/
def okTransport : String → RequestConfig → Except JsError Response :=
  fun _ _ => Except.ok sampleOkResponse

/-- A transport that always yields sampleErrResponse. -/
def errTransport : String → RequestConfig → Except JsError Response :=
  fun _ _ => Except.ok sampleErrResponse

/-- The error a browser throws when the network is unreachable. -/
def networkError : JsError :=
  { name := "TypeError", message := "Failed to fetch" }

/-- A transport whose request fails at the network level. -/
def failTransport : String → RequestConfig → Except JsError Response :=
  fun _ _ => Except.error networkError

/-- Options with both callbacks supplied and every other field defaulted. -/
def sampleOptions : FetchOptions :=
  { hasSuccessCallback := true, hasErrorCallback := true }

/-- Options with a positive timeout. -/
def timedOptions : FetchOptions := { timeout := 100 }

/-- Options with a responseType outside the json/text/blob enumeration and
outside the properties inherited from Object.prototype. -/
def xmlOptions : FetchOptions := { responseType := "xml" }

/-- Options whose responseType names the inherited toString method. -/
def toStringOptions : FetchOptions := { responseType := "toString" }

/-! ## The claims -/

/-- C1: For every invocation of customFetch whose transport returns a
response with non-ok status, the call resolves to undefined (it does not
throw for this case alone); if an errorCallback is supplied it is invoked
exactly once with the raw response object, and if it is absent the call
still silently resolves to no value. -/
theorem customFetch_nonOk_resolves_undefined
    (url : String) (options : FetchOptions)
    (transport : String → RequestConfig → Except JsError Response)
    (getToken : String) (response : Response)
    (htr : transport (createFullUrl url options.baseURL options.params)
        (createRequestConfig options.method options.data getToken)
      = Except.ok response)
    (hok : response.ok = false) :
    (customFetch url options transport getToken).result = Except.ok none ∧
    errorCalls (customFetch url options transport getToken).events
      = (if options.hasErrorCallback then [response] else []) := by
  have ha : attempt url options transport getToken
      = (Except.ok none,
         if options.hasErrorCallback then [Event.callbackError response]
         else []) := by
    simp [attempt, htr, handleResponse, hok]
  constructor
  · simp [customFetch, ha, catchPhase]
  · have hev : (customFetch url options transport getToken).events
        = setupEvents options.timeout
          ++ (if options.hasErrorCallback then [Event.callbackError response]
              else [])
          ++ cleanupTimeout (timeoutIdOf options.timeout) := by
      simp [customFetch, ha, catchPhase]
    rw [hev, errorCalls_append, errorCalls_append, errorCalls_setupEvents,
      errorCalls_cleanup]
    cases options.hasErrorCallback <;> simp [errorCalls]

/-- Witness for C1 at a concrete non-ok transport. -/
theorem customFetch_nonOk_resolves_undefined_witness :
    errTransport
        (createFullUrl "/api/err" sampleOptions.baseURL sampleOptions.params)
        (createRequestConfig sampleOptions.method sampleOptions.data "tok")
      = Except.ok sampleErrResponse
    ∧ sampleErrResponse.ok = false
    ∧ ((customFetch "/api/err" sampleOptions errTransport "tok").result
        = Except.ok none
      ∧ errorCalls (customFetch "/api/err" sampleOptions errTransport "tok").events
        = (if sampleOptions.hasErrorCallback then [sampleErrResponse] else [])) :=
  ⟨rfl, rfl,
   customFetch_nonOk_resolves_undefined "/api/err" sampleOptions errTransport
     "tok" sampleErrResponse rfl rfl⟩

/-- C2: For every invocation of customFetch in which a failure other than an
HTTP-status failure occurs (a transport/network failure, a timeout-triggered
abort, or a body-parsing failure), the call rejects: after the local side
effects (a diagnostic log and a user-facing alert) the same error is
re-thrown to the caller. -/
theorem customFetch_rethrows_nonstatus_failures
    (url : String) (options : FetchOptions)
    (transport : String → RequestConfig → Except JsError Response)
    (getToken : String) (e : JsError)
    (hfail :
      transport (createFullUrl url options.baseURL options.params)
          (createRequestConfig options.method options.data getToken)
        = Except.error e
      ∨ ∃ response,
          transport (createFullUrl url options.baseURL options.params)
              (createRequestConfig options.method options.data getToken)
            = Except.ok response
          ∧ response.ok = true
          ∧ parseResponse response options.responseType = Except.error e) :
    (customFetch url options transport getToken).result = Except.error e ∧
    Event.log "Fetch error:" ∈ (customFetch url options transport getToken).events ∧
    Event.alertE e ∈ (customFetch url options transport getToken).events := by
  have ha : attempt url options transport getToken = (Except.error e, []) := by
    rcases hfail with h | ⟨response, htr, hok, hparse⟩
    · simp [attempt, h]
    · simp [attempt, htr, handleResponse, hok, hparse]
  exact error_path_spec url options transport getToken e ha

/-- Witness for C2 at a concrete network failure. -/
theorem customFetch_rethrows_nonstatus_failures_witness :
    failTransport
        (createFullUrl "/api" sampleOptions.baseURL sampleOptions.params)
        (createRequestConfig sampleOptions.method sampleOptions.data "tok")
      = Except.error networkError
    ∧ ((customFetch "/api" sampleOptions failTransport "tok").result
        = Except.error networkError
      ∧ Event.log "Fetch error:"
        ∈ (customFetch "/api" sampleOptions failTransport "tok").events
      ∧ Event.alertE networkError
        ∈ (customFetch "/api" sampleOptions failTransport "tok").events) :=
  ⟨rfl,
   customFetch_rethrows_nonstatus_failures "/api" sampleOptions failTransport
     "tok" networkError (Or.inl rfl)⟩

/-- C3: For every invocation of customFetch whose transport returns an
ok-status response and whose responseType is json, the promise resolves to
the structurally decoded (JSON-parsed) body, and successCallback, when
supplied, is invoked exactly once with that same decoded value. -/
theorem customFetch_ok_json_resolves_parsed
    (url : String) (options : FetchOptions)
    (transport : String → RequestConfig → Except JsError Response)
    (getToken : String) (response : Response) (j : Json)
    (htr : transport (createFullUrl url options.baseURL options.params)
        (createRequestConfig options.method options.data getToken)
      = Except.ok response)
    (hok : response.ok = true)
    (hrt : options.responseType = "json")
    (hbody : response.jsonBody = Except.ok j) :
    (customFetch url options transport getToken).result
      = Except.ok (some (Value.json j)) ∧
    successCalls (customFetch url options transport getToken).events
      = (if options.hasSuccessCallback then [Value.json j] else []) := by
  have hparse : parseResponse response options.responseType
      = Except.ok (Value.json j) := by
    simp [parseResponse, parsers, hrt, hbody, Except.map]
  have ha : attempt url options transport getToken
      = (Except.ok (some (Value.json j)),
         if options.hasSuccessCallback then [Event.callbackSuccess (Value.json j)]
         else []) := by
    simp [attempt, htr, handleResponse, hok, hparse]
  constructor
  · simp [customFetch, ha, catchPhase]
  · have hev : (customFetch url options transport getToken).events
        = setupEvents options.timeout
          ++ (if options.hasSuccessCallback
              then [Event.callbackSuccess (Value.json j)] else [])
          ++ cleanupTimeout (timeoutIdOf options.timeout) := by
      simp [customFetch, ha, catchPhase]
    rw [hev, successCalls_append, successCalls_append, successCalls_setupEvents,
      successCalls_cleanup]
    cases options.hasSuccessCallback <;> simp [successCalls]

/-- Witness for C3 at a concrete ok transport with a JSON body. -/
theorem customFetch_ok_json_resolves_parsed_witness :
    okTransport
        (createFullUrl "/api/users" sampleOptions.baseURL sampleOptions.params)
        (createRequestConfig sampleOptions.method sampleOptions.data "tok")
      = Except.ok sampleOkResponse
    ∧ sampleOkResponse.ok = true
    ∧ sampleOptions.responseType = "json"
    ∧ sampleOkResponse.jsonBody = Except.ok sampleJsonBody
    ∧ ((customFetch "/api/users" sampleOptions okTransport "tok").result
        = Except.ok (some (Value.json sampleJsonBody))
      ∧ successCalls
          (customFetch "/api/users" sampleOptions okTransport "tok").events
        = (if sampleOptions.hasSuccessCallback
           then [Value.json sampleJsonBody] else [])) :=
  ⟨rfl, rfl, rfl, rfl,
   customFetch_ok_json_resolves_parsed "/api/users" sampleOptions okTransport
     "tok" sampleOkResponse sampleJsonBody rfl rfl rfl rfl⟩

/-- C4: For every invocation where options.data is a non-empty mapping, the
request descriptor sent to the transport has body equal to the JSON
serialization of that mapping, a Content-Type: application/json header, and
an Authorization: Bearer token header whose token is the value the external
token provider returns at call time; when data is absent the body is
absent. -/
theorem createRequestConfig_body_and_headers
    (method getToken : String) (fields : List (String × Json))
    (hne : fields ≠ []) :
    (createRequestConfig method (some (Json.obj fields)) getToken).body
      = some (stringifyJson (Json.obj fields)) ∧
    ("Content-Type", "application/json")
      ∈ (createRequestConfig method (some (Json.obj fields)) getToken).headers ∧
    ("Authorization", "Bearer " ++ getToken)
      ∈ (createRequestConfig method (some (Json.obj fields)) getToken).headers ∧
    (createRequestConfig method none getToken).body = none := by
  refine ⟨rfl, ?_, ?_, rfl⟩ <;> simp [createRequestConfig]

/-- Witness for C4 at a concrete one-field mapping. -/
theorem createRequestConfig_body_and_headers_witness :
    ([(("name" : String), Json.str "John")] : List (String × Json)) ≠ []
    ∧ ((createRequestConfig "POST" (some (Json.obj [("name", Json.str "John")]))
          "tok").body
        = some (stringifyJson (Json.obj [("name", Json.str "John")]))
      ∧ ("Content-Type", "application/json")
        ∈ (createRequestConfig "POST"
            (some (Json.obj [("name", Json.str "John")])) "tok").headers
      ∧ ("Authorization", "Bearer " ++ "tok")
        ∈ (createRequestConfig "POST"
            (some (Json.obj [("name", Json.str "John")])) "tok").headers
      ∧ (createRequestConfig "POST" none "tok").body = none) :=
  ⟨List.cons_ne_nil _ _,
   createRequestConfig_body_and_headers "POST" "tok"
     [("name", Json.str "John")] (List.cons_ne_nil _ _)⟩

/-- C5: The full target address is the concatenation of baseURL, url and the
query string built from params when present (each key and value URL-encoded,
pairs in the mapping's iteration order); for the params page = 1 and
q = "a b" the query string is ?page=1&q=a+b exactly. -/
theorem createFullUrl_concatenation_and_encoding
    (u b : String) (ps : List (String × Json)) :
    createFullUrl u b (some ps)
      = b ++ u ++ ("?" ++ String.intercalate "&" (ps.map fun kv =>
          urlencode kv.1 ++ "=" ++ urlencode (jsToString kv.2))) ∧
    createFullUrl u b (some [("page", Json.num 1), ("q", Json.str "a b")])
      = b ++ u ++ "?page=1&q=a+b" := by
  exact ⟨rfl, rfl⟩

/-- C6: For every invocation with options.timeout = 0, no cancellation
timer is created, whatever the transport does. -/
theorem customFetch_timeout_zero_no_timer
    (url : String) (options : FetchOptions)
    (transport : String → RequestConfig → Except JsError Response)
    (getToken : String)
    (h : options.timeout = 0) :
    (customFetch url options transport getToken).events.countP isTimerSet
      = 0 := by
  have hmid := (tryCatch_timer_free url options transport getToken).1
  simp [customFetch, List.countP_append, hmid, setupEvents, timeoutIdOf, h,
    cleanupTimeout]

/-- Witness for C6: zero timeout against a concrete transport. -/
theorem customFetch_timeout_zero_no_timer_witness :
    sampleOptions.timeout = 0
    ∧ (customFetch "/api" sampleOptions okTransport "tok").events.countP
        isTimerSet = 0 :=
  ⟨rfl, customFetch_timeout_zero_no_timer "/api" sampleOptions okTransport
    "tok" rfl⟩

/-- C7: For every invocation in which a cancellation timer was scheduled
(options.timeout > 0), exactly one timer is set and exactly one timer is
cleared, on every exit path (every transport outcome): no pending timer is
leaked. -/
theorem customFetch_timer_cleared_every_path
    (url : String) (options : FetchOptions)
    (transport : String → RequestConfig → Except JsError Response)
    (getToken : String)
    (h : options.timeout ≠ 0) :
    (customFetch url options transport getToken).events.countP isTimerSet
      = 1 ∧
    (customFetch url options transport getToken).events.countP isTimerCleared
      = 1 := by
  have hmid := tryCatch_timer_free url options transport getToken
  constructor
  · simp [customFetch, List.countP_append, hmid.1, setupEvents, timeoutIdOf,
      h, cleanupTimeout, isTimerSet, isTimerCleared]
  · simp [customFetch, List.countP_append, hmid.2, setupEvents, timeoutIdOf,
      h, cleanupTimeout, isTimerSet, isTimerCleared]

/-- Witness for C7: a positive timeout against a concrete transport. -/
theorem customFetch_timer_cleared_every_path_witness :
    timedOptions.timeout ≠ 0
    ∧ ((customFetch "/api" timedOptions okTransport "tok").events.countP
        isTimerSet = 1
      ∧ (customFetch "/api" timedOptions okTransport "tok").events.countP
        isTimerCleared = 1) :=
  ⟨by decide,
   customFetch_timer_cleared_every_path "/api" timedOptions okTransport "tok"
     (by decide)⟩

/-- C8: Two invocations of customFetch with identical url and options
against the same deterministic transport and token provider produce
identical settled results and identical callback invocation traces. -/
theorem customFetch_deterministic
    (url1 url2 : String) (options1 options2 : FetchOptions)
    (transport1 transport2 : String → RequestConfig → Except JsError Response)
    (getToken1 getToken2 : String)
    (hu : url1 = url2) (ho : options1 = options2)
    (ht : transport1 = transport2) (hk : getToken1 = getToken2) :
    (customFetch url1 options1 transport1 getToken1).result
      = (customFetch url2 options2 transport2 getToken2).result ∧
    successCalls (customFetch url1 options1 transport1 getToken1).events
      = successCalls (customFetch url2 options2 transport2 getToken2).events ∧
    errorCalls (customFetch url1 options1 transport1 getToken1).events
      = errorCalls (customFetch url2 options2 transport2 getToken2).events := by
  subst hu; subst ho; subst ht; subst hk
  exact ⟨rfl, rfl, rfl⟩

/-- Witness for C8: two identical concrete invocations. -/
theorem customFetch_deterministic_witness :
    (customFetch "/api/users" sampleOptions okTransport "tok").result
      = (customFetch "/api/users" sampleOptions okTransport "tok").result
    ∧ successCalls (customFetch "/api/users" sampleOptions okTransport "tok").events
      = successCalls (customFetch "/api/users" sampleOptions okTransport "tok").events
    ∧ errorCalls (customFetch "/api/users" sampleOptions okTransport "tok").events
      = errorCalls (customFetch "/api/users" sampleOptions okTransport "tok").events :=
  customFetch_deterministic "/api/users" "/api/users" sampleOptions
    sampleOptions okTransport okTransport "tok" "tok" rfl rfl rfl rfl

/-- Counterexample to C9 as first stated: at the responseType toString -
outside the json/text/blob enumeration - the object lookup finds the
method every object literal inherits from Object.prototype, so the call
resolves with the string [object Object] instead of taking the failure
path. -/
theorem customFetch_toString_responseType_resolves :
    toStringOptions.responseType ≠ "json"
    ∧ toStringOptions.responseType ≠ "text"
    ∧ toStringOptions.responseType ≠ "blob"
    ∧ parsers sampleOkResponse toStringOptions.responseType
      = some (Except.ok (Value.text "[object Object]"))
    ∧ (customFetch "/api" toStringOptions okTransport "tok").result
      = Except.ok (some (Value.text "[object Object]")) := by
  refine ⟨by decide, by decide, by decide, by simp [parsers, toStringOptions], ?_⟩
  rfl

/-- C9 (amended): For every invocation whose transport returns an ok-status
response but whose responseType is outside the json/text/blob enumeration
and is not one of the property names every object literal inherits from
Object.prototype, the parser lookup yields no parser, so the call takes the
failure path: it rejects with the TypeError of calling undefined, after
logging and alerting it, instead of resolving with a parsed value. -/
theorem customFetch_unknown_responseType_fails
    (url : String) (options : FetchOptions)
    (transport : String → RequestConfig → Except JsError Response)
    (getToken : String) (response : Response)
    (htr : transport (createFullUrl url options.baseURL options.params)
        (createRequestConfig options.method options.data getToken)
      = Except.ok response)
    (hok : response.ok = true)
    (h1 : options.responseType ≠ "json")
    (h2 : options.responseType ≠ "text")
    (h3 : options.responseType ≠ "blob")
    (h4 : options.responseType ∉ objectPrototypeMembers) :
    parsers response options.responseType = none ∧
    (customFetch url options transport getToken).result
      = Except.error typeErrorNotAFunction ∧
    Event.log "Fetch error:" ∈ (customFetch url options transport getToken).events ∧
    Event.alertE typeErrorNotAFunction
      ∈ (customFetch url options transport getToken).events := by
  have h4' : options.responseType ≠ "constructor"
      ∧ options.responseType ≠ "hasOwnProperty"
      ∧ options.responseType ≠ "isPrototypeOf"
      ∧ options.responseType ≠ "propertyIsEnumerable"
      ∧ options.responseType ≠ "toLocaleString"
      ∧ options.responseType ≠ "toString"
      ∧ options.responseType ≠ "valueOf"
      ∧ options.responseType ≠ "__defineGetter__"
      ∧ options.responseType ≠ "__defineSetter__"
      ∧ options.responseType ≠ "__lookupGetter__"
      ∧ options.responseType ≠ "__lookupSetter__" := by
    simp only [objectPrototypeMembers, List.mem_cons, List.not_mem_nil,
      or_false, not_or] at h4
    exact ⟨h4.1, h4.2.1, h4.2.2.1, h4.2.2.2.1, h4.2.2.2.2.1, h4.2.2.2.2.2.1,
      h4.2.2.2.2.2.2.1, h4.2.2.2.2.2.2.2.1, h4.2.2.2.2.2.2.2.2.1,
      h4.2.2.2.2.2.2.2.2.2.1, h4.2.2.2.2.2.2.2.2.2.2.1⟩
  obtain ⟨hc, hhop, hipo, hpie, htls, hts, hvo, hdg, hds, hlg, hls⟩ := h4'
  have hp : parsers response options.responseType = none := by
    simp [parsers, h1, h2, h3, hc, hhop, hipo, hpie, htls, hts, hvo, hdg,
      hds, hlg, hls]
  have hparse : parseResponse response options.responseType
      = Except.error typeErrorNotAFunction := by
    simp [parseResponse, hp]
  have ha : attempt url options transport getToken
      = (Except.error typeErrorNotAFunction, []) := by
    simp [attempt, htr, handleResponse, hok, hparse]
  exact ⟨hp, error_path_spec url options transport getToken
    typeErrorNotAFunction ha⟩

/-- Witness for C9 at the concrete responseType xml. -/
theorem customFetch_unknown_responseType_fails_witness :
    okTransport
        (createFullUrl "/api" xmlOptions.baseURL xmlOptions.params)
        (createRequestConfig xmlOptions.method xmlOptions.data "tok")
      = Except.ok sampleOkResponse
    ∧ sampleOkResponse.ok = true
    ∧ xmlOptions.responseType ≠ "json"
    ∧ xmlOptions.responseType ∉ objectPrototypeMembers
    ∧ (parsers sampleOkResponse xmlOptions.responseType = none
      ∧ (customFetch "/api" xmlOptions okTransport "tok").result
        = Except.error typeErrorNotAFunction
      ∧ Event.log "Fetch error:"
        ∈ (customFetch "/api" xmlOptions okTransport "tok").events
      ∧ Event.alertE typeErrorNotAFunction
        ∈ (customFetch "/api" xmlOptions okTransport "tok").events) :=
  ⟨rfl, rfl, by decide, by decide,
   customFetch_unknown_responseType_fails "/api" xmlOptions okTransport "tok"
     sampleOkResponse rfl rfl (by decide) (by decide) (by decide) (by decide)⟩

/-- C10: For every invocation where options.params is the empty mapping,
the constructed full address is baseURL + url followed by a bare question
mark, whereas when params is null or absent nothing is appended. -/
theorem createFullUrl_empty_vs_absent_params (u b : String) :
    createFullUrl u b (some []) = b ++ u ++ "?" ∧
    createFullUrl u b none = b ++ u := by
  constructor
  · rfl
  · show b ++ u ++ "" = b ++ u
    exact String.append_empty _
